import Mathlib

/-!
Shallow embedding of `hyperspy/ui_registry.py`: a registry of user-interface
widgets.  `UI_REGISTRY` maps a tool key ("feature") to a mapping from toolkit
name ("backend") to a widget function ("handler"); `TOOLKIT_REGISTRY` is the
set of toolkit names seen by `register_widget`.  Python dictionaries are
modelled as association lists that preserve insertion order (updates replace
in place, fresh keys are appended); Python sets of strings are modelled as
duplicate-free lists built by `setAdd`.
-/

namespace UIRegistry

/-- Owners (the `obj`/`self` argument handed to widget functions). -/
abbrev Owner := Nat

/-- The open-ended keyword options (`**kwargs`) passed through to handlers. -/
abbrev Options := List (String × Nat)

/-- The value a widget function hands back when `display` is false. -/
abbrev Result := Nat

/-- A widget function: called as `f(obj, display, **kwargs)`. -/
abbrev Handler := Owner → Bool → Options → Result

/-- Dictionary lookup on an association list (first binding wins, as in a
Python `dict` where keys are unique). -/
def alistLookup {α : Type} : List (String × α) → String → Option α
  | [], _ => none
  | (k', v) :: rest, k => if k' = k then some v else alistLookup rest k

/-- Dictionary assignment `d[k] = v`: replace the first binding of `k` in
place, or append a fresh binding at the end (Python insertion order). -/
def alistInsert {α : Type} : List (String × α) → String → α → List (String × α)
  | [], k, v => [(k, v)]
  | (k', v') :: rest, k, v =>
    if k' = k then (k', v) :: rest else (k', v') :: alistInsert rest k v

/-- `s.add(x)` on a Python set modelled as a duplicate-free list. -/
def setAdd (l : List String) (x : String) : List String :=
  if x ∈ l then l else l ++ [x]

/-- The inner mapping of `UI_REGISTRY`: toolkit name to widget function. -/
abbrev UIMap := List (String × Handler)

/-- The process-wide registry state: `UI_REGISTRY` and `TOOLKIT_REGISTRY`
from `ui_registry.py`. -/
structure Registry where
  UI_REGISTRY : List (String × UIMap)
  TOOLKIT_REGISTRY : List String

/-- Errors raised by the registration functions (`NameError` in Python),
kept structured so a theorem can talk about what the error names. -/
inductive RegError : Type
  | notRegisteredToolkey (toolkey : String)
  | duplicateToolkey
  deriving DecidableEq, Repr

/-- Errors raised by `get_gui`, kept structured: `noToolkitInstalled` is the
`ImportError`, `notRegisteredToolkit` and `invalidToolkitArg` are the two
`ValueError`s, `noUIRegistered` and `toolkitsNotAvailable` are the two
`NotImplementedError`s (the latter records the requested toolkits and the
toolkits available for the feature, as the Python message does). -/
inductive GuiError : Type
  | noToolkitInstalled
  | notRegisteredToolkit (tk : String)
  | invalidToolkitArg
  | noUIRegistered
  | toolkitsNotAvailable (requested : List String) (available : List String)
  deriving DecidableEq, Repr

/-- `register_toolkey(toolkey)`: raises if the key is already present,
otherwise installs an empty toolkit mapping for it. -/
def register_toolkey (toolkey : String) (st : Registry) : Except RegError Registry :=
  if (alistLookup st.UI_REGISTRY toolkey).isSome then
    .error .duplicateToolkey
  else
    .ok { st with UI_REGISTRY := alistInsert st.UI_REGISTRY toolkey [] }

/-- The decoration-setup stage of `register_widget(toolkit, toolkey)`: the
body that runs before the inner `decorator` is applied to any function.  It
raises `NameError` when `toolkey` is not a registered toolkey (leaving the
state untouched) and otherwise adds `toolkit` to `TOOLKIT_REGISTRY`. -/
def register_widget_setup (toolkit toolkey : String) (st : Registry) :
    Except RegError Registry :=
  if (alistLookup st.UI_REGISTRY toolkey).isNone then
    .error (.notRegisteredToolkey toolkey)
  else
    .ok { st with TOOLKIT_REGISTRY := setAdd st.TOOLKIT_REGISTRY toolkit }

/-- The inner `decorator` of `register_widget`:
`UI_REGISTRY[toolkey][toolkit] = f` (the missing-key branch mirrors the
`KeyError` Python would raise; it is unreachable after a successful setup). -/
def store_widget (toolkey toolkit : String) (f : Handler) (st : Registry) : Registry :=
  match alistLookup st.UI_REGISTRY toolkey with
  | none => st
  | some m =>
    { st with UI_REGISTRY := alistInsert st.UI_REGISTRY toolkey (alistInsert m toolkit f) }

/-- `register_widget(toolkit, toolkey)` applied immediately to a widget
function `f` (the ordinary `@register_widget(...)` decorator usage): the
setup stage followed by the inner decorator storing `f`. -/
def register_widget (toolkit toolkey : String) (f : Handler) (st : Registry) :
    Except RegError Registry :=
  (register_widget_setup toolkit toolkey st).map (store_widget toolkey toolkit f)

/-- The shape of the `toolkit` argument of `get_gui`: a string, an iterable
of strings, `None`, or anything else.  Modelled from the spec: the shape
dispatch in the source uses `isinstance(toolkit, str)` and the helper
`isiterable` from `hyperspy.misc.utils`, which is not part of this slice;
the spec describes the four shapes as string / sequence of strings / absent
/ any other shape. -/
inductive ToolkitArg : Type
  | none
  | str (s : String)
  | strs (l : List String)
  | other

/-- The preferences consulted by `get_gui` when `toolkit is None`.  Modelled
from the spec: `preferences.General` of `hyperspy.defaults_parser` is an
external configuration collaborator that is only read, so it enters the
model as a pair of flags. -/
structure Prefs where
  enable_ipywidgets_gui : Bool
  enable_traitsui_gui : Bool

/-- The toolkit list built from the preferences in the `toolkit is None`
branch of `get_gui` (lines appending `"ipywidgets"` then `"traitsui"`). -/
def enabled_toolkits (prefs : Prefs) : List String :=
  (if prefs.enable_ipywidgets_gui then ["ipywidgets"] else []) ++
    (if prefs.enable_traitsui_gui then ["traitsui"] else [])

/-- The validation loop of `get_gui` for a string or iterable `toolkit`
argument: each entry is checked against `TOOLKIT_REGISTRY`; the first entry
that is not registered raises `ValueError`; valid entries are collected into
the set `toolkits`. -/
def validateToolkits (st : Registry) (acc : List String) :
    List String → Except GuiError (List String)
  | [] => .ok acc
  | tk :: rest =>
    if tk ∈ st.TOOLKIT_REGISTRY then validateToolkits st (setAdd acc tk) rest
    else .error (.notRegisteredToolkit tk)

/-- Resolution of the `toolkit` argument into the `toolkits` collection used
by the dispatch loop: `.ok none` is the early `return` of `get_gui` when the
preferences enable no toolkit; `.ok (some l)` carries the resolved
toolkits. -/
def resolveToolkits (st : Registry) (prefs : Prefs) :
    ToolkitArg → Except GuiError (Option (List String))
  | .str s => (validateToolkits st [] [s]).map some
  | .strs l => (validateToolkits st [] l).map some
  | .none =>
    let tks := enabled_toolkits prefs
    if tks = [] then .ok none else .ok (some tks)
  | .other => .error .invalidToolkitArg

/-- The dispatch loop of `get_gui` over `UI_REGISTRY[toolkey].items()`:
toolkits in `toolkits` are recorded in `used_toolkits` and their widget
function is called (its value collected into `widgets` when `display` is
false); the others are recorded in `available_toolkits`.  Returns
`(widgets, used_toolkits, available_toolkits)`. -/
def gui_loop (self : Owner) (display : Bool) (kwargs : Options) (toolkits : List String) :
    UIMap → List (String × Result) → List String → List String →
      List (String × Result) × List String × List String
  | [], widgets, used, avail => (widgets, used, avail)
  | (tk, f) :: rest, widgets, used, avail =>
    if tk ∈ toolkits then
      gui_loop self display kwargs toolkits rest
        (if display then widgets else alistInsert widgets tk (f self display kwargs))
        (setAdd used tk) avail
    else
      gui_loop self display kwargs toolkits rest widgets used (setAdd avail tk)

/-- `get_gui(self, toolkey, display, toolkit, **kwargs)`.  The result
`.ok none` is Python's implicit `None` return (the `display` path and the
empty-preferences early return); `.ok (some widgets)` is the returned widget
dictionary when `display` is false. -/
def get_gui (st : Registry) (prefs : Prefs) (self : Owner) (toolkey : String)
    (display : Bool) (toolkit : ToolkitArg) (kwargs : Options) :
    Except GuiError (Option (List (String × Result))) :=
  if st.TOOLKIT_REGISTRY = [] then .error .noToolkitInstalled
  else
    match resolveToolkits st prefs toolkit with
    | .error e => .error e
    | .ok Option.none => .ok none
    | .ok (some toolkits) =>
      match alistLookup st.UI_REGISTRY toolkey with
      | none => .error .noUIRegistered
      | some m =>
        if m.isEmpty then .error .noUIRegistered
        else
          match gui_loop self display kwargs toolkits m [] [] [] with
          | (widgets, used, avail) =>
            if used = [] ∧ avail ≠ [] then
              .error (.toolkitsNotAvailable toolkits avail)
            else if display then .ok none
            else .ok (some widgets)

/-- `get_partial_gui(toolkey)`: the bound operation `pg` that forwards to
`get_gui` with `toolkey` fixed. -/
def get_partial_gui (toolkey : String) :
    Registry → Prefs → Owner → Bool → ToolkitArg → Options →
      Except GuiError (Option (List (String × Result))) :=
  fun st prefs self display toolkit kwargs =>
    get_gui st prefs self toolkey display toolkit kwargs

/-- The empty registry (module state before any registration). -/
def emptyRegistry : Registry := ⟨[], []⟩

/-- One step of client usage of the registration API: a `register_toolkey`
call, a `register_widget(toolkit, toolkey)` call whose returned decorator
has not (yet) been applied, or a `register_widget` call applied immediately
to a widget function.  A raised error leaves the module state unchanged. -/
inductive RegOp : Type
  | key (toolkey : String)
  | setup (toolkit toolkey : String)
  | widget (toolkit toolkey : String) (f : Handler)

/-- Effect of one registration step on the module state. -/
def applyRegOp (st : Registry) : RegOp → Registry
  | .key k =>
    match register_toolkey k st with
    | .ok s => s
    | .error _ => st
  | .setup tk k =>
    match register_widget_setup tk k st with
    | .ok s => s
    | .error _ => st
  | .widget tk k f =>
    match register_widget tk k f st with
    | .ok s => s
    | .error _ => st

/-- Run a sequence of registration steps. -/
def runOps (st : Registry) (ops : List RegOp) : Registry :=
  ops.foldl applyRegOp st

/-- The module state right after `ui_registry.py` is imported: the three
`register_toolkey` calls at the bottom of the file, starting from empty. -/
def initRegistry : Registry :=
  runOps emptyRegistry
    [.key "interactive_range_selector", .key "navigation_sliders", .key "load"]

/-- A registry state is reachable when some sequence of registration calls
produces it from the freshly imported module state. -/
def Reachable (st : Registry) : Prop :=
  ∃ ops : List RegOp, runOps initRegistry ops = st

/-- `tk` has at least one widget function stored for it under some toolkey. -/
def hasHandlerB (st : Registry) (tk : String) : Bool :=
  st.UI_REGISTRY.any fun p => (alistLookup p.2 tk).isSome

/-- Whether a registration step is a bare `register_widget` call whose
returned decorator was never applied to a widget function. -/
def isSetup : RegOp → Bool
  | .setup _ _ => true
  | _ => false

/-- The registry invariant used for the completed-registration analysis:
the toolkey dictionary has no duplicate keys, and every toolkit in
`TOOLKIT_REGISTRY` has a widget function stored somewhere. -/
def RegInv (st : Registry) : Prop :=
  (st.UI_REGISTRY.map Prod.fst).Nodup ∧
    ∀ tk ∈ st.TOOLKIT_REGISTRY, hasHandlerB st tk = true

/-! ### Association-list and set lemmas -/

theorem alistLookup_insert_self {α : Type} (l : List (String × α)) (k : String) (v : α) :
    alistLookup (alistInsert l k v) k = some v := by
  induction l with
  | nil => simp [alistInsert, alistLookup]
  | cons p rest ih =>
    by_cases h : p.1 = k
    · simp [alistInsert, alistLookup, h]
    · simp [alistInsert, alistLookup, h, ih]

theorem alistLookup_insert_ne {α : Type} (l : List (String × α)) {k k' : String} (v : α)
    (h : k' ≠ k) : alistLookup (alistInsert l k v) k' = alistLookup l k' := by
  induction l with
  | nil => simp [alistInsert, alistLookup, Ne.symm h]
  | cons p rest ih =>
    by_cases hp : p.1 = k
    · simp [alistInsert, alistLookup, hp, Ne.symm h]
    · simp [alistInsert, alistLookup, hp, ih]

theorem alistInsert_absent {α : Type} {l : List (String × α)} {k : String} (v : α)
    (h : alistLookup l k = none) : alistInsert l k v = l ++ [(k, v)] := by
  induction l with
  | nil => simp [alistInsert]
  | cons p rest ih =>
    by_cases hp : p.1 = k
    · simp [alistLookup, hp] at h
    · simp [alistLookup, hp] at h
      simp [alistInsert, hp, ih h]

theorem alistLookup_append_none {α : Type} {l₁ : List (String × α)} (l₂ : List (String × α))
    {k : String} (h : alistLookup l₁ k = none) :
    alistLookup (l₁ ++ l₂) k = alistLookup l₂ k := by
  induction l₁ with
  | nil => simp
  | cons p rest ih =>
    by_cases hp : p.1 = k
    · simp [alistLookup, hp] at h
    · simp [alistLookup, hp] at h
      simp [alistLookup, hp, ih h]

theorem mem_of_alistLookup_eq_some {α : Type} {l : List (String × α)} {k : String} {v : α}
    (h : alistLookup l k = some v) : (k, v) ∈ l := by
  induction l with
  | nil => simp [alistLookup] at h
  | cons p rest ih =>
    obtain ⟨pk, pv⟩ := p
    by_cases hp : pk = k
    · simp only [alistLookup, hp, if_true] at h
      have hv := Option.some.inj h
      exact List.mem_cons.mpr (Or.inl (by rw [← hp, ← hv]))
    · simp only [alistLookup, hp, if_false] at h
      exact List.mem_cons_of_mem _ (ih h)

theorem mem_alistInsert_of_mem_ne {α : Type} {l : List (String × α)} {k' : String} {v' : α}
    (k : String) (v : α) (h : (k', v') ∈ l) (hne : k' ≠ k) : (k', v') ∈ alistInsert l k v := by
  induction l with
  | nil => simp at h
  | cons p rest ih =>
    rcases List.mem_cons.mp h with h' | h'
    · by_cases hp : p.1 = k
      · exfalso
        exact hne (by rw [← h'] at hp; exact hp)
      · simp only [alistInsert, hp, if_false]
        exact h' ▸ List.mem_cons_self _ _
    · by_cases hp : p.1 = k
      · simp only [alistInsert, hp, if_true]
        exact List.mem_cons_of_mem _ h'
      · simp only [alistInsert, hp, if_false]
        exact List.mem_cons_of_mem _ (ih h')

theorem alistLookup_eq_some_of_mem_nodup {α : Type} {l : List (String × α)} {k : String}
    {v : α} (hn : (l.map Prod.fst).Nodup) (h : (k, v) ∈ l) : alistLookup l k = some v := by
  induction l with
  | nil => simp at h
  | cons p rest ih =>
    simp only [List.map_cons, List.nodup_cons] at hn
    rcases List.mem_cons.mp h with h' | h'
    · rw [← h']
      simp [alistLookup]
    · have hp : p.1 ≠ k := by
        intro hk
        exact hn.1 (hk ▸ (List.mem_map.mpr ⟨(k, v), h', rfl⟩))
      simp [alistLookup, hp, ih hn.2 h']

theorem alistInsert_map_fst_of_isSome {α : Type} {l : List (String × α)} {k : String}
    (v : α) (h : (alistLookup l k).isSome) :
    (alistInsert l k v).map Prod.fst = l.map Prod.fst := by
  induction l with
  | nil => simp [alistLookup] at h
  | cons p rest ih =>
    by_cases hp : p.1 = k
    · simp [alistInsert, hp]
    · simp [alistLookup, hp] at h
      simp [alistInsert, hp, ih h]

theorem mem_setAdd {l : List String} {x y : String} : y ∈ setAdd l x ↔ y ∈ l ∨ y = x := by
  unfold setAdd
  by_cases h : x ∈ l
  · simp only [h, if_true]
    constructor
    · exact Or.inl
    · rintro (hy | rfl)
      · exact hy
      · exact h
  · simp [h]

theorem self_mem_setAdd (l : List String) (x : String) : x ∈ setAdd l x :=
  mem_setAdd.mpr (Or.inr rfl)

theorem setAdd_ne_nil (l : List String) (x : String) : setAdd l x ≠ [] := by
  intro h
  have hx := self_mem_setAdd l x
  rw [h] at hx
  simp at hx

theorem mem_foldl_setAdd (l : List String) (acc : List String) (y : String) :
    y ∈ l.foldl setAdd acc ↔ y ∈ acc ∨ y ∈ l := by
  induction l generalizing acc with
  | nil => simp
  | cons x rest ih =>
    simp only [List.foldl_cons, ih, mem_setAdd, List.mem_cons]
    tauto

/-! ### Behaviour of the validation and dispatch loops -/

theorem validateToolkits_all_mem (st : Registry) (l : List String) (acc : List String)
    (h : ∀ x ∈ l, x ∈ st.TOOLKIT_REGISTRY) :
    validateToolkits st acc l = .ok (l.foldl setAdd acc) := by
  induction l generalizing acc with
  | nil => simp [validateToolkits]
  | cons tk rest ih =>
    have htk : tk ∈ st.TOOLKIT_REGISTRY := h tk (List.mem_cons_self _ _)
    simp [validateToolkits, htk, ih _ fun x hx => h x (List.mem_cons_of_mem _ hx)]

theorem validateToolkits_first_invalid (st : Registry) (l₁ l₂ : List String) (tk : String)
    (acc : List String) (h1 : ∀ x ∈ l₁, x ∈ st.TOOLKIT_REGISTRY)
    (h2 : tk ∉ st.TOOLKIT_REGISTRY) :
    validateToolkits st acc (l₁ ++ tk :: l₂) = .error (.notRegisteredToolkit tk) := by
  induction l₁ generalizing acc with
  | nil => simp [validateToolkits, h2]
  | cons x rest ih =>
    have hx : x ∈ st.TOOLKIT_REGISTRY := h1 x (List.mem_cons_self _ _)
    simp [validateToolkits, hx, ih _ fun y hy => h1 y (List.mem_cons_of_mem _ hy)]

theorem gui_loop_no_match (self : Owner) (display : Bool) (kwargs : Options)
    (toolkits : List String) (m : UIMap) (widgets : List (String × Result))
    (used avail : List String) (h : ∀ p ∈ m, p.1 ∉ toolkits) :
    gui_loop self display kwargs toolkits m widgets used avail =
      (widgets, used, (m.map Prod.fst).foldl setAdd avail) := by
  induction m generalizing avail with
  | nil => simp [gui_loop]
  | cons p rest ih =>
    obtain ⟨tk, f⟩ := p
    have htk : tk ∉ toolkits := h (tk, f) (List.mem_cons_self _ _)
    simp [gui_loop, htk, ih _ fun q hq => h q (List.mem_cons_of_mem _ hq)]

/-! ### The claims -/

/-- C9: a toolkey not yet registered is accepted by `register_toolkey`,
which installs an empty toolkit mapping for it, and a second
`register_toolkey` with the same key raises the duplicate-toolkey
`NameError`. -/
theorem c9_register_toolkey_once_then_duplicate (st : Registry) (k : String)
    (h : alistLookup st.UI_REGISTRY k = none) :
    ∃ st', register_toolkey k st = .ok st' ∧
      alistLookup st'.UI_REGISTRY k = some [] ∧
      register_toolkey k st' = .error .duplicateToolkey := by
  refine ⟨{ st with UI_REGISTRY := alistInsert st.UI_REGISTRY k [] }, ?_, ?_, ?_⟩
  · simp [register_toolkey, h]
  · exact alistLookup_insert_self _ _ _
  · simp [register_toolkey, alistLookup_insert_self]

/-- Witness for C9 at the empty registry and the key `"load"`. -/
theorem c9_register_toolkey_once_then_duplicate_witness :
    ∃ st', register_toolkey "load" emptyRegistry = .ok st' ∧
      alistLookup st'.UI_REGISTRY "load" = some [] ∧
      register_toolkey "load" st' = .error .duplicateToolkey :=
  c9_register_toolkey_once_then_duplicate emptyRegistry "load" rfl

/-- C6: with `TOOLKIT_REGISTRY` empty, `get_gui` raises the `ImportError`
whatever the toolkey, display flag, toolkit argument or options are, so
this check precedes every other validation. -/
theorem c6_empty_toolkit_registry_import_error (st : Registry) (prefs : Prefs)
    (self : Owner) (toolkey : String) (display : Bool) (toolkit : ToolkitArg)
    (kwargs : Options) (h : st.TOOLKIT_REGISTRY = []) :
    get_gui st prefs self toolkey display toolkit kwargs = .error .noToolkitInstalled := by
  simp [get_gui, h]

/-- Witness for C6: invoking on the freshly imported module state (three
toolkeys, no toolkits) with an otherwise-valid-looking call. -/
theorem c6_empty_toolkit_registry_import_error_witness :
    get_gui initRegistry ⟨true, true⟩ 0 "load" false (.str "ipywidgets") [] =
      .error .noToolkitInstalled :=
  c6_empty_toolkit_registry_import_error initRegistry ⟨true, true⟩ 0 "load" false
    (.str "ipywidgets") [] rfl

/-- C4: registering a widget for a toolkey that was never registered raises
the `NameError` already at the decoration-setup stage, before the inner
decorator runs; no handler is stored and the module state is unchanged
(both for the bare setup call and for a full decorator application). -/
theorem c4_register_widget_unknown_toolkey (st : Registry) (b k : String) (f : Handler)
    (h : alistLookup st.UI_REGISTRY k = none) :
    register_widget_setup b k st = .error (.notRegisteredToolkey k) ∧
      register_widget b k f st = .error (.notRegisteredToolkey k) ∧
      applyRegOp st (.setup b k) = st ∧
      applyRegOp st (.widget b k f) = st := by
  have hs : register_widget_setup b k st = .error (.notRegisteredToolkey k) := by
    simp [register_widget_setup, h]
  refine ⟨hs, ?_, ?_, ?_⟩
  · simp [register_widget, hs, Except.map]
  · simp [applyRegOp, hs]
  · simp [applyRegOp, register_widget, hs, Except.map]

/-- Witness for C4: registering for the unknown toolkey `"plot"` on the
freshly imported module state. -/
theorem c4_register_widget_unknown_toolkey_witness :
    register_widget_setup "ipywidgets" "plot" initRegistry =
        .error (.notRegisteredToolkey "plot") ∧
      register_widget "ipywidgets" "plot" (fun _ _ _ => 0) initRegistry =
        .error (.notRegisteredToolkey "plot") ∧
      applyRegOp initRegistry (.setup "ipywidgets" "plot") = initRegistry ∧
      applyRegOp initRegistry (.widget "ipywidgets" "plot" (fun _ _ _ => 0)) = initRegistry :=
  c4_register_widget_unknown_toolkey initRegistry "ipywidgets" "plot" (fun _ _ _ => 0) rfl

/-- C1: after `register_toolkey "load"` succeeds and
`register_widget "toolkitA" "load"` is applied to `f`, the toolkit
`"toolkitA"` is in `TOOLKIT_REGISTRY` and `get_gui` with `display = false`
and toolkit argument `"toolkitA"` returns the one-entry dictionary mapping
`"toolkitA"` to `f owner false []`, the registered handler applied to the
owner and the display flag. -/
theorem c1_register_handler_then_invoke (st st1 st2 : Registry) (prefs : Prefs)
    (owner : Owner) (f : Handler)
    (h1 : register_toolkey "load" st = .ok st1)
    (h2 : register_widget "toolkitA" "load" f st1 = .ok st2) :
    "toolkitA" ∈ st2.TOOLKIT_REGISTRY ∧
      get_gui st2 prefs owner "load" false (.str "toolkitA") [] =
        .ok (some [("toolkitA", f owner false [])]) := by
  unfold register_toolkey at h1
  split at h1
  · exact absurd h1 (by simp)
  · replace h1 := Except.ok.inj h1
    unfold register_widget register_widget_setup store_widget at h2
    rw [← h1] at h2
    simp only [alistLookup_insert_self, Option.isNone_some, Bool.false_eq_true, if_false,
      Except.map, Except.ok.injEq] at h2
    subst h2
    have hmem := self_mem_setAdd st.TOOLKIT_REGISTRY "toolkitA"
    have hne := setAdd_ne_nil st.TOOLKIT_REGISTRY "toolkitA"
    have e1 : setAdd ([] : List String) "toolkitA" = ["toolkitA"] := rfl
    have e2 : alistInsert ([] : UIMap) "toolkitA" f = [("toolkitA", f)] := rfl
    have e3 : alistInsert ([] : List (String × Result)) "toolkitA" (f owner false []) =
        [("toolkitA", f owner false [])] := rfl
    constructor
    · exact hmem
    · simp [get_gui, resolveToolkits, validateToolkits, gui_loop, hmem, hne,
        alistLookup_insert_self, e1, e2, e3, Except.map]

/-- Witness for C1: the registration sequence run on the empty registry with
the handler returning `owner + 7` when `display` is false. -/
theorem c1_register_handler_then_invoke_witness :
    "toolkitA" ∈
        (Registry.mk [("load", [("toolkitA", fun o d _ => if d then 0 else o + 7)])]
          ["toolkitA"]).TOOLKIT_REGISTRY ∧
      get_gui
          (Registry.mk [("load", [("toolkitA", fun o d _ => if d then 0 else o + 7)])]
            ["toolkitA"])
          ⟨false, false⟩ 35 "load" false (.str "toolkitA") [] =
        .ok (some [("toolkitA", 42)]) :=
  c1_register_handler_then_invoke emptyRegistry
    (Registry.mk [("load", [])] [])
    (Registry.mk [("load", [("toolkitA", fun o d _ => if d then 0 else o + 7)])]
      ["toolkitA"])
    ⟨false, false⟩ 35 (fun o d _ => if d then 0 else o + 7) rfl rfl

/-- C3: `get_partial_gui` is a pure operation (it reads and writes no
registry state), so two calls with the same toolkey both succeed and the
two bound operations agree on every input; each simply forwards to
`get_gui` with the toolkey fixed. -/
theorem c3_get_partial_gui_twice_same_behavior (k : String) (st : Registry)
    (prefs : Prefs) (self : Owner) (display : Bool) (toolkit : ToolkitArg)
    (kwargs : Options) :
    get_partial_gui k st prefs self display toolkit kwargs =
        get_partial_gui k st prefs self display toolkit kwargs ∧
      get_partial_gui k st prefs self display toolkit kwargs =
        get_gui st prefs self k display toolkit kwargs :=
  ⟨rfl, rfl⟩

/-- C7 counterexample: with no toolkit ever registered, a `get_gui` call
with `toolkit = None` and a configuration enabling no toolkit raises the
`ImportError` instead of returning with no result and no error. -/
theorem c7_counterexample :
    enabled_toolkits ⟨false, false⟩ = [] ∧
      get_gui initRegistry ⟨false, false⟩ 0 "load" true .none [] =
        .error .noToolkitInstalled ∧
      get_gui initRegistry ⟨false, false⟩ 0 "load" true .none [] ≠ .ok none :=
  ⟨rfl, rfl, fun h => by rw [(rfl : get_gui initRegistry ⟨false, false⟩ 0 "load" true
      .none [] = .error .noToolkitInstalled)] at h; exact Except.noConfusion h⟩

/-- C7 as amended: provided at least one toolkit is registered (so the
`ImportError` check passes), a `get_gui` call with `toolkit = None` and a
configuration enabling no toolkit returns `None` with no error, whatever
the toolkey is (even an unregistered one, showing the feature-availability
check is never reached and no widget function is consulted). -/
theorem c7_empty_preferences_early_return (st : Registry) (prefs : Prefs)
    (self : Owner) (toolkey : String) (display : Bool) (kwargs : Options)
    (hne : st.TOOLKIT_REGISTRY ≠ [])
    (hprefs : enabled_toolkits prefs = []) :
    get_gui st prefs self toolkey display .none kwargs = .ok none := by
  simp [get_gui, resolveToolkits, hne, hprefs]

/-- Witness for the amended C7: one toolkit registered, preferences all
disabled, and a toolkey that does not even exist. -/
theorem c7_empty_preferences_early_return_witness :
    get_gui (Registry.mk [("load", [("toolkitA", fun _ _ _ => 3)])] ["toolkitA"])
        ⟨false, false⟩ 0 "nonexistent" false .none [] = .ok none :=
  c7_empty_preferences_early_return
    (Registry.mk [("load", [("toolkitA", fun _ _ _ => 3)])] ["toolkitA"])
    ⟨false, false⟩ 0 "nonexistent" false [] (by simp) rfl

/-- C8: the validation of a string or iterable `toolkit` argument.  A
single string not in `TOOLKIT_REGISTRY` raises the `ValueError` naming it;
in an iterable the first entry not in `TOOLKIT_REGISTRY` raises that
`ValueError`; and when every entry is registered, validation succeeds and
the resolved toolkit set holds exactly the entries (their union as a
set). -/
theorem c8_toolkit_argument_validation :
    (∀ (st : Registry) (prefs : Prefs) (self : Owner) (toolkey : String)
        (display : Bool) (kwargs : Options) (s : String),
      st.TOOLKIT_REGISTRY ≠ [] → s ∉ st.TOOLKIT_REGISTRY →
        get_gui st prefs self toolkey display (.str s) kwargs =
          .error (.notRegisteredToolkit s)) ∧
      (∀ (st : Registry) (prefs : Prefs) (self : Owner) (toolkey : String)
          (display : Bool) (kwargs : Options) (l₁ l₂ : List String) (tk : String),
        st.TOOLKIT_REGISTRY ≠ [] → (∀ x ∈ l₁, x ∈ st.TOOLKIT_REGISTRY) →
          tk ∉ st.TOOLKIT_REGISTRY →
          get_gui st prefs self toolkey display (.strs (l₁ ++ tk :: l₂)) kwargs =
            .error (.notRegisteredToolkit tk)) ∧
      (∀ (st : Registry) (l : List String), (∀ x ∈ l, x ∈ st.TOOLKIT_REGISTRY) →
        ∃ r, validateToolkits st [] l = .ok r ∧ ∀ x, x ∈ r ↔ x ∈ l) := by
  refine ⟨?_, ?_, ?_⟩
  · intro st prefs self toolkey display kwargs s hne hs
    simp [get_gui, resolveToolkits, validateToolkits, hne, hs, Except.map]
  · intro st prefs self toolkey display kwargs l₁ l₂ tk hne h1 h2
    simp [get_gui, resolveToolkits, hne, Except.map,
      validateToolkits_first_invalid st l₁ l₂ tk [] h1 h2]
  · intro st l h
    refine ⟨l.foldl setAdd [], validateToolkits_all_mem st l [] h, fun x => ?_⟩
    rw [mem_foldl_setAdd]
    simp

/-- Witness for C8: a registry knowing `"toolkitA"` and `"toolkitB"`; the
unknown name `"unknownToolkit"` fails alone and as the first invalid entry
of an iterable, and the valid iterable `["toolkitB", "toolkitA"]` resolves
to exactly those two names. -/
theorem c8_toolkit_argument_validation_witness :
    get_gui (Registry.mk [("load", [("toolkitA", fun _ _ _ => 3)])] ["toolkitA", "toolkitB"])
        ⟨true, true⟩ 0 "load" false (.str "unknownToolkit") [] =
        .error (.notRegisteredToolkit "unknownToolkit") ∧
      get_gui (Registry.mk [("load", [("toolkitA", fun _ _ _ => 3)])] ["toolkitA", "toolkitB"])
          ⟨true, true⟩ 0 "load" false (.strs ["toolkitA", "unknownToolkit", "toolkitB"]) [] =
          .error (.notRegisteredToolkit "unknownToolkit") ∧
      ∃ r, validateToolkits
            (Registry.mk [("load", [("toolkitA", fun _ _ _ => 3)])] ["toolkitA", "toolkitB"])
            [] ["toolkitB", "toolkitA"] = .ok r ∧
          ∀ x, x ∈ r ↔ x ∈ ["toolkitB", "toolkitA"] := by
  refine ⟨?_, ?_, ?_⟩
  · exact c8_toolkit_argument_validation.1 _ ⟨true, true⟩ 0 "load" false []
      "unknownToolkit" (by simp) (by decide)
  · exact c8_toolkit_argument_validation.2.1 _ ⟨true, true⟩ 0 "load" false []
      ["toolkitA"] ["toolkitB"] "unknownToolkit" (by simp) (by decide) (by decide)
  · exact c8_toolkit_argument_validation.2.2 _ ["toolkitB", "toolkitA"] (by decide)

/-- C5: when all requested toolkits are registered but none of them carries
a widget for the toolkey, while the toolkey does have widgets from other
toolkits, `get_gui` raises the `NotImplementedError` that names the
resolved requested toolkits and the toolkits that are available for the
toolkey. -/
theorem c5_toolkits_not_available_error (st : Registry) (prefs : Prefs) (self : Owner)
    (toolkey : String) (display : Bool) (kwargs : Options) (req : List String) (m : UIMap)
    (hne : st.TOOLKIT_REGISTRY ≠ [])
    (hreq : ∀ x ∈ req, x ∈ st.TOOLKIT_REGISTRY)
    (hm : alistLookup st.UI_REGISTRY toolkey = some m)
    (hm0 : m ≠ [])
    (hnone : ∀ p ∈ m, p.1 ∉ req) :
    ∃ reqSet avail,
      get_gui st prefs self toolkey display (.strs req) kwargs =
          .error (.toolkitsNotAvailable reqSet avail) ∧
        (∀ x, x ∈ reqSet ↔ x ∈ req) ∧
        (∀ x, x ∈ avail ↔ x ∈ m.map Prod.fst) := by
  have hreqset : ∀ x, x ∈ req.foldl setAdd [] ↔ x ∈ req := by
    intro x
    rw [mem_foldl_setAdd]
    simp
  have hval : validateToolkits st [] req = .ok (req.foldl setAdd []) :=
    validateToolkits_all_mem st req [] hreq
  have hloop := gui_loop_no_match self display kwargs (req.foldl setAdd []) m [] [] []
    fun p hp hmem => hnone p hp ((hreqset p.1).mp hmem)
  obtain ⟨q, rest, hqm⟩ := List.exists_cons_of_ne_nil hm0
  have hq1 : q.1 ∈ (m.map Prod.fst).foldl setAdd [] := by
    rw [mem_foldl_setAdd]
    exact Or.inr (List.mem_map.mpr ⟨q, hqm ▸ List.mem_cons_self _ _, rfl⟩)
  have havailne : (m.map Prod.fst).foldl setAdd [] ≠ [] := List.ne_nil_of_mem hq1
  have hm0' : m.isEmpty = false := by rw [hqm]; rfl
  refine ⟨req.foldl setAdd [], (m.map Prod.fst).foldl setAdd [], ?_, hreqset, ?_⟩
  · simp [get_gui, resolveToolkits, hne, hval, hm, hm0', hloop, havailne, Except.map]
  · intro x
    rw [mem_foldl_setAdd]
    simp

/-- Witness for C5: `"toolkitB"` is known (it registered for
`"navigation_sliders"`) but only `"toolkitA"` registered for `"load"`;
asking for `"load"` with `["toolkitB"]` fails naming `"toolkitA"` as
available. -/
theorem c5_toolkits_not_available_error_witness :
    ∃ reqSet avail,
      get_gui
          (Registry.mk
            [("load", [("toolkitA", fun _ _ _ => 3)]),
              ("navigation_sliders", [("toolkitB", fun _ _ _ => 4)])]
            ["toolkitA", "toolkitB"])
          ⟨true, true⟩ 0 "load" false (.strs ["toolkitB"]) [] =
          .error (.toolkitsNotAvailable reqSet avail) ∧
        (∀ x, x ∈ reqSet ↔ x ∈ ["toolkitB"]) ∧
        (∀ x, x ∈ avail ↔ x ∈ ([("toolkitA", fun _ _ _ => 3)] : UIMap).map Prod.fst) :=
  c5_toolkits_not_available_error
    (Registry.mk
      [("load", [("toolkitA", fun _ _ _ => 3)]),
        ("navigation_sliders", [("toolkitB", fun _ _ _ => 4)])]
      ["toolkitA", "toolkitB"])
    ⟨true, true⟩ 0 "load" false [] ["toolkitB"] [("toolkitA", fun _ _ _ => 3)]
    (by simp) (by decide) rfl (by simp)
    (fun p hp => by
      rcases List.mem_singleton.mp hp with rfl
      decide)

/-- C10: when `toolkit` is `None`, the toolkit names taken from the
preferences are not validated against `TOOLKIT_REGISTRY`: even when none
of them was ever registered, `get_gui` proceeds, and when the toolkey has
widgets but none from the preferred toolkits it raises the
`NotImplementedError` naming them — never the unregistered-toolkit
`ValueError`. -/
theorem c10_preference_toolkits_not_validated (st : Registry) (prefs : Prefs)
    (self : Owner) (toolkey : String) (display : Bool) (kwargs : Options) (m : UIMap)
    (hne : st.TOOLKIT_REGISTRY ≠ [])
    (henabled : enabled_toolkits prefs ≠ [])
    (hm : alistLookup st.UI_REGISTRY toolkey = some m)
    (hm0 : m ≠ [])
    (hnone : ∀ p ∈ m, p.1 ∉ enabled_toolkits prefs) :
    ∃ avail,
      get_gui st prefs self toolkey display .none kwargs =
          .error (.toolkitsNotAvailable (enabled_toolkits prefs) avail) ∧
        ∀ x, x ∈ avail ↔ x ∈ m.map Prod.fst := by
  have hloop := gui_loop_no_match self display kwargs (enabled_toolkits prefs) m [] [] []
    hnone
  obtain ⟨q, rest, hqm⟩ := List.exists_cons_of_ne_nil hm0
  have hq1 : q.1 ∈ (m.map Prod.fst).foldl setAdd [] := by
    rw [mem_foldl_setAdd]
    exact Or.inr (List.mem_map.mpr ⟨q, hqm ▸ List.mem_cons_self _ _, rfl⟩)
  have havailne : (m.map Prod.fst).foldl setAdd [] ≠ [] := List.ne_nil_of_mem hq1
  have hm0' : m.isEmpty = false := by rw [hqm]; rfl
  refine ⟨(m.map Prod.fst).foldl setAdd [], ?_, ?_⟩
  · simp [get_gui, resolveToolkits, hne, henabled, hm, hm0', hloop, havailne]
  · intro x
    rw [mem_foldl_setAdd]
    simp

/-- Witness for C10: `"ipywidgets"` is enabled in the preferences but was
never registered; with only `"toolkitA"` registered (for `"load"`), the
selector-absent call fails naming `["ipywidgets"]` as requested rather
than raising the unregistered-toolkit `ValueError`. -/
theorem c10_preference_toolkits_not_validated_witness :
    ∃ avail,
      get_gui (Registry.mk [("load", [("toolkitA", fun _ _ _ => 3)])] ["toolkitA"])
          ⟨true, false⟩ 0 "load" false .none [] =
          .error (.toolkitsNotAvailable (enabled_toolkits ⟨true, false⟩) avail) ∧
        ∀ x, x ∈ avail ↔ x ∈ ([("toolkitA", fun _ _ _ => 3)] : UIMap).map Prod.fst :=
  c10_preference_toolkits_not_validated
    (Registry.mk [("load", [("toolkitA", fun _ _ _ => 3)])] ["toolkitA"])
    ⟨true, false⟩ 0 "load" false [] [("toolkitA", fun _ _ _ => 3)]
    (by simp) (by decide) rfl (by simp)
    (fun p hp => by
      rcases List.mem_singleton.mp hp with rfl
      decide)

theorem not_mem_map_fst_of_lookup_none {α : Type} {l : List (String × α)} {k : String}
    (h : alistLookup l k = none) : k ∉ l.map Prod.fst := by
  induction l with
  | nil => simp
  | cons p rest ih =>
    by_cases hp : p.1 = k
    · simp [alistLookup, hp] at h
    · simp [alistLookup, hp] at h
      simp [ih h, Ne.symm hp]

theorem regInv_key (st : Registry) (k : String) (h : RegInv st) :
    RegInv (applyRegOp st (.key k)) := by
  unfold applyRegOp register_toolkey
  cases hx : alistLookup st.UI_REGISTRY k with
  | some m => simpa [hx] using h
  | none =>
    obtain ⟨hnodup, hinv⟩ := h
    have hins : alistInsert st.UI_REGISTRY k ([] : UIMap) = st.UI_REGISTRY ++ [(k, [])] :=
      alistInsert_absent _ hx
    simp only [hx, Option.isSome_none, Bool.false_eq_true, if_false]
    constructor
    · show (List.map Prod.fst (alistInsert st.UI_REGISTRY k [])).Nodup
      rw [hins, List.map_append, List.nodup_append]
      refine ⟨hnodup, List.nodup_singleton _, ?_⟩
      intro x hxm hx'
      simp only [List.map_cons, List.map_nil, List.mem_singleton] at hx'
      subst hx'
      exact not_mem_map_fst_of_lookup_none hx hxm
    · show ∀ tk ∈ st.TOOLKIT_REGISTRY,
        hasHandlerB ⟨alistInsert st.UI_REGISTRY k [], st.TOOLKIT_REGISTRY⟩ tk = true
      intro tk htk
      have hh := hinv tk htk
      rw [hasHandlerB] at hh ⊢
      show ((alistInsert st.UI_REGISTRY k []).any fun p => (alistLookup p.2 tk).isSome) = true
      rw [hins, List.any_append]
      simp only [hh, Bool.true_or]

theorem regInv_widget (st : Registry) (tk k : String) (f : Handler) (h : RegInv st) :
    RegInv (applyRegOp st (.widget tk k f)) := by
  unfold applyRegOp register_widget register_widget_setup store_widget
  cases hm : alistLookup st.UI_REGISTRY k with
  | none => simpa [hm, Except.map] using h
  | some m =>
    obtain ⟨hnodup, hinv⟩ := h
    simp only [hm, Option.isNone_some, Bool.false_eq_true, if_false, Except.map]
    constructor
    · show (List.map Prod.fst (alistInsert st.UI_REGISTRY k (alistInsert m tk f))).Nodup
      rw [alistInsert_map_fst_of_isSome _ (by rw [hm]; rfl)]
      exact hnodup
    · show ∀ tk' ∈ setAdd st.TOOLKIT_REGISTRY tk,
        hasHandlerB ⟨alistInsert st.UI_REGISTRY k (alistInsert m tk f),
          setAdd st.TOOLKIT_REGISTRY tk⟩ tk' = true
      intro tk' htk'
      rw [hasHandlerB, List.any_eq_true]
      rcases mem_setAdd.mp htk' with htk' | heq
      · have hold := hinv tk' htk'
        rw [hasHandlerB, List.any_eq_true] at hold
        obtain ⟨⟨k', mk⟩, hmem, hlook⟩ := hold
        by_cases hkk : k' = k
        · rw [hkk] at hmem
          have hmk : mk = m := by
            have hx := alistLookup_eq_some_of_mem_nodup hnodup hmem
            rw [hm] at hx
            exact (Option.some.inj hx).symm
          refine ⟨(k, alistInsert m tk f),
            mem_of_alistLookup_eq_some (alistLookup_insert_self _ _ _), ?_⟩
          by_cases htkk : tk' = tk
          · rw [htkk]
            show (alistLookup (alistInsert m tk f) tk).isSome = true
            rw [alistLookup_insert_self]
            rfl
          · show (alistLookup (alistInsert m tk f) tk').isSome = true
            rw [alistLookup_insert_ne _ _ htkk, ← hmk]
            exact hlook
        · exact ⟨(k', mk), mem_alistInsert_of_mem_ne _ _ hmem hkk, hlook⟩
      · rw [heq]
        refine ⟨(k, alistInsert m tk f),
          mem_of_alistLookup_eq_some (alistLookup_insert_self _ _ _), ?_⟩
        show (alistLookup (alistInsert m tk f) tk).isSome = true
        rw [alistLookup_insert_self]
        rfl

/-- C2 counterexample: calling `register_widget("toolkitA", "load")` on the
freshly imported module and never applying the returned decorator is a
reachable registry state in which `"toolkitA"` is in `TOOLKIT_REGISTRY`
although no handler at all is stored for it: `TOOLKIT_REGISTRY.add` runs at
decoration-setup time, before any handler is stored. -/
theorem c2_counterexample :
    Reachable (runOps initRegistry [.setup "toolkitA" "load"]) ∧
      "toolkitA" ∈ (runOps initRegistry [.setup "toolkitA" "load"]).TOOLKIT_REGISTRY ∧
      hasHandlerB (runOps initRegistry [.setup "toolkitA" "load"]) "toolkitA" = false := by
  refine ⟨⟨[.setup "toolkitA" "load"], rfl⟩, ?_, rfl⟩
  have hTK : (runOps initRegistry [.setup "toolkitA" "load"]).TOOLKIT_REGISTRY =
      ["toolkitA"] := rfl
  rw [hTK]
  exact List.mem_singleton.mpr rfl

/-- C2 as amended: a toolkit name enters `TOOLKIT_REGISTRY` at the
decoration-setup stage of `register_widget`, which may precede the handler
being stored; but along every registration sequence in which each
`register_widget` call has its decorator applied (no bare setup calls),
every toolkit in `TOOLKIT_REGISTRY` has at least one handler stored for it
under some toolkey. -/
theorem c2_amended_completed_registrations_have_handlers (ops : List RegOp)
    (h : ∀ op ∈ ops, isSetup op = false) :
    ∀ tk ∈ (runOps initRegistry ops).TOOLKIT_REGISTRY,
      hasHandlerB (runOps initRegistry ops) tk = true := by
  have hinit : RegInv initRegistry := by
    constructor
    · decide
    · intro tk htk
      have hTK : initRegistry.TOOLKIT_REGISTRY = [] := rfl
      rw [hTK] at htk
      cases htk
  suffices hgen : ∀ (l : List RegOp) (st : Registry), (∀ op ∈ l, isSetup op = false) →
      RegInv st → RegInv (runOps st l) by
    exact (hgen ops initRegistry h hinit).2
  intro l
  induction l with
  | nil => exact fun st _ hst => hst
  | cons op rest ih =>
    intro st hops hst
    have hrest : ∀ o ∈ rest, isSetup o = false :=
      fun o ho => hops o (List.mem_cons_of_mem _ ho)
    cases op with
    | key k => exact ih _ hrest (regInv_key st k hst)
    | setup a b =>
      have := hops (.setup a b) (List.mem_cons_self _ _)
      simp [isSetup] at this
    | widget a b f => exact ih _ hrest (regInv_widget st a b f hst)

/-- Witness for the amended C2: registering one widget for `"load"` with
the decorator applied leaves `"toolkitA"` with a stored handler. -/
theorem c2_amended_completed_registrations_have_handlers_witness :
    hasHandlerB (runOps initRegistry [.widget "toolkitA" "load" fun _ _ _ => 5])
        "toolkitA" = true :=
  c2_amended_completed_registrations_have_handlers
    [.widget "toolkitA" "load" fun _ _ _ => 5]
    (fun op hop => by
      rcases List.mem_singleton.mp hop with rfl
      rfl)
    "toolkitA"
    (by
      have hTK : (runOps initRegistry
          [.widget "toolkitA" "load" fun _ _ _ => 5]).TOOLKIT_REGISTRY = ["toolkitA"] := rfl
      rw [hTK]
      exact List.mem_singleton.mpr rfl)

end UIRegistry
